import Mathlib

/-!
Shallow embedding of the clock-configuration module (`src/rcc.rs`) of the
stm32f7xx-hal repository: the `CFGR` configuration accumulator, its builder
setters, and `CFGR::freeze`, which validates the requested frequencies,
selects the clock source (HSI or PLL), writes the hardware registers and
returns the frozen `Clocks` snapshot.

Modelling conventions:
- `u32` values are `Nat`; wrapping arithmetic is written with explicit `% 2^w`
  where the Rust code can overflow.
- A Rust panic (failed `assert!`, `unreachable!`, division by zero, or an
  arithmetic overflow in a debug build) makes `freeze` return `none`.
  For the `ppre1_bits - 0b011` subtraction, which underflows `u8` when the
  prescaler bit code is 0, we embed the release-mode (wrapping) semantics:
  the subtraction wraps modulo 2^8 and the `u32` shift amount is masked
  modulo 32.
- The hardware register writes performed by `freeze` are recorded, in order,
  as a list of `HWWrite` events returned next to the snapshot.
-/

namespace Stm32Rcc

/-- Internal oscillator frequency in Hz (`const HSI: u32 = 16_000_000`). -/
def HSI : Nat := 16000000

/-- Configuration accumulator (`pub struct CFGR`): four optional target
frequencies in Hz. -/
structure CFGR where
  hclk : Option Nat
  pclk1 : Option Nat
  pclk2 : Option Nat
  sysclk : Option Nat
deriving DecidableEq, Repr

/-- Frozen clock snapshot (`pub struct Clocks`): the four resolved
frequencies in Hz. -/
structure Clocks where
  hclk : Nat
  pclk1 : Nat
  pclk2 : Nat
  sysclk : Nat
deriving DecidableEq, Repr

/-- Clock-source-select field value (`sw().hsi()` / `sw().pll()`). -/
inductive SW where
  | hsi
  | pll
deriving DecidableEq, Repr

/-- One hardware register write (or the PLL-ready spin-wait) performed by
`freeze`, in program order. -/
inductive HWWrite where
  /-- `flash.acr.write(|w| w.latency().bits(...))` -/
  | flashAcr (latency : Nat)
  /-- `rcc.pllcfgr.write(|w| w.pllm().bits(pllm).plln().bits(plln as u16).pllp().bits(pllp))` -/
  | pllcfgr (pllm plln pllp : Nat)
  /-- `rcc.cr.write(|w| w.pllon().set_bit())` -/
  | crPllOn
  /-- `while rcc.cr.read().pllrdy().bit_is_clear() {}` -/
  | pllRdyWait
  /-- `rcc.cfgr.modify(|_, w| w.ppre2().bits(_).ppre1().bits(_).hpre().bits(_).sw()...)` -/
  | cfgr (ppre2 ppre1 hpre : Nat) (sw : SW)
deriving DecidableEq, Repr

/-- Builder setter `CFGR::hclk` (named `set_hclk` because the struct field is
already called `hclk`). -/
def CFGR.set_hclk (c : CFGR) (freq : Nat) : CFGR :=
  { c with hclk := some freq }

/-- Builder setter `CFGR::pclk1`. -/
def CFGR.set_pclk1 (c : CFGR) (freq : Nat) : CFGR :=
  { c with pclk1 := some freq }

/-- Builder setter `CFGR::pclk2`. -/
def CFGR.set_pclk2 (c : CFGR) (freq : Nat) : CFGR :=
  { c with pclk2 := some freq }

/-- Builder setter `CFGR::sysclk`. -/
def CFGR.set_sysclk (c : CFGR) (freq : Nat) : CFGR :=
  { c with sysclk := some freq }

/-- The `match sysclk / hclk` table of `freeze` (HSI path with divided AHB):
ratio 0 hits `unreachable!()` (in Rust the division itself already panics
when `hclk == 0`), embedded as `none`. -/
def hpreBits (ratio : Nat) : Option Nat :=
  match ratio with
  | 0 => none
  | 1 => some 0b0111
  | 2 => some 0b1000
  | r =>
    if r ≤ 5 then some 0b1001
    else if r ≤ 11 then some 0b1010
    else if r ≤ 39 then some 0b1011
    else if r ≤ 95 then some 0b1100
    else if r ≤ 191 then some 0b1101
    else if r ≤ 383 then some 0b1110
    else some 0b1111

/-- PLL `(pllm, plln, pllp)` triple chosen by system-frequency band in the
PLL path of `freeze`. -/
def pllConfig (sysclk : Nat) : Nat × Nat × Nat :=
  if 96000000 ≤ sysclk then
    (16, sysclk / 1000000 * 2, 0b0)
  else if sysclk ≤ 54000000 then
    (16, sysclk / 1000000 * 8, 0b11)
  else
    (16, sysclk / 1000000 * 4, 0b1)

/-- APB2 prescaler bit code chosen in the PLL path
(`if sysclk > 108_000_000 { 0b100 } else { 0 }`). -/
def ppre2Bits (sysclk : Nat) : Nat :=
  if 108000000 < sysclk then 0b100 else 0

/-- APB1 prescaler bit code chosen in the PLL path. -/
def ppre1Bits (sysclk : Nat) : Nat :=
  if 108000000 < sysclk then 0b101
  else if 54000000 < sysclk then 0b100
  else 0

/-- The `let ppre = 1 << (ppre_bits - 0b011)` divisor computation of the PLL
path. `ppre_bits` is a `u8`, so for a bit code of 0 the subtraction wraps to
253 (a debug build panics here instead); the `u32` shift then masks the
amount modulo 32, giving `1 <<< 29`. -/
def ppreDiv (bits : Nat) : Nat :=
  2 ^ ((bits + 256 - 0b011) % 256 % 32)

/-- Flash wait-state (latency) code chosen from `sysclk` in the PLL path of
`freeze`, one 30 MHz band per code. -/
def flashLatency (sysclk : Nat) : Nat :=
  if sysclk ≤ 30000000 then 0b0000
  else if sysclk ≤ 60000000 then 0b0001
  else if sysclk ≤ 90000000 then 0b0010
  else if sysclk ≤ 120000000 then 0b0011
  else if sysclk ≤ 150000000 then 0b0100
  else if sysclk ≤ 180000000 then 0b0101
  else if sysclk ≤ 210000000 then 0b0110
  else 0b0111

/-- `CFGR::freeze`: resolve the requested frequencies, perform the hardware
writes (returned as an ordered event list) and return the `Clocks` snapshot;
`none` models a panic. -/
def CFGR.freeze (c : CFGR) : Option (Clocks × List HWWrite) :=
  let sysclk := c.sysclk.getD HSI
  let hclk := c.hclk.getD HSI
  if HSI ≤ sysclk then          -- assert!(sysclk >= HSI)
    if hclk ≤ sysclk then       -- assert!(hclk <= sysclk)
      if sysclk = HSI ∧ hclk = sysclk then
        -- use HSI as source and run everything at the same speed
        some (⟨hclk, hclk, hclk, sysclk⟩, [HWWrite.cfgr 0 0 0 SW.hsi])
      else if sysclk = HSI ∧ hclk < sysclk then
        (hpreBits (sysclk / hclk)).map fun hb =>
          (⟨hclk, hclk, hclk, sysclk⟩, [HWWrite.cfgr 0 0 hb SW.hsi])
      else
        -- assert!(sysclk <= 216_000_000 && sysclk >= 24_000_000)
        if sysclk ≤ 216000000 ∧ 24000000 ≤ sysclk then
          -- let hclk = sysclk (the requested hclk is shadowed)
          let pclk1 := sysclk / ppreDiv (ppre1Bits sysclk)
          let pclk2 := sysclk / ppreDiv (ppre2Bits sysclk)
          some (⟨sysclk, pclk1, pclk2, sysclk⟩,
            [HWWrite.flashAcr (flashLatency sysclk),
             HWWrite.pllcfgr (pllConfig sysclk).1
               ((pllConfig sysclk).2.1 % 65536) (pllConfig sysclk).2.2,
             HWWrite.crPllOn,
             HWWrite.pllRdyWait,
             HWWrite.cfgr (ppre2Bits sysclk) (ppre1Bits sysclk) 0 SW.pll])
        else none
    else none
  else none

/-- Modelled from the spec: the core-bus (AHB) prescaler table of Path B as
the spec words it — ratio→code: 1→0111, 2→1000, 3–5→1001, 6–11→1010,
12–39→1011, 40–95→1100, 96–191→1101, 192–383→1110, else→1111. -/
def hpreTableSpec (r : Nat) : Nat :=
  if r = 1 then 0b0111
  else if r = 2 then 0b1000
  else if 3 ≤ r ∧ r ≤ 5 then 0b1001
  else if 6 ≤ r ∧ r ≤ 11 then 0b1010
  else if 12 ≤ r ∧ r ≤ 39 then 0b1011
  else if 40 ≤ r ∧ r ≤ 95 then 0b1100
  else if 96 ≤ r ∧ r ≤ 191 then 0b1101
  else if 192 ≤ r ∧ r ≤ 383 then 0b1110
  else 0b1111

set_option maxRecDepth 4000 in
/-- For a nonzero AHB-divider ratio, the `freeze` prescaler match agrees with
the spec's table and does not hit the `unreachable!()` arm. -/
theorem hpreBits_eq_table (r : Nat) (hr : 1 ≤ r) :
    hpreBits r = some (hpreTableSpec r) := by
  rcases Nat.lt_or_ge r 384 with hlt | hge
  · have hsmall : ∀ m : Nat, m < 384 → 1 ≤ m →
        hpreBits m = some (hpreTableSpec m) := by
      decide
    exact hsmall r hlt hr
  · obtain ⟨n, rfl⟩ : ∃ n, r = n + 3 := ⟨r - 3, by omega⟩
    have hbig : hpreTableSpec (n + 3) = 0b1111 := by
      unfold hpreTableSpec
      split_ifs <;> omega
    rw [hbig]
    simp only [hpreBits]
    split_ifs <;> first | rfl | omega

/-- The `freeze` prescaler match hits the `unreachable!()` arm exactly at
ratio 0. -/
theorem hpreBits_none_iff (r : Nat) : hpreBits r = none ↔ r = 0 := by
  match r with
  | 0 => simp [hpreBits]
  | 1 => simp [hpreBits]
  | 2 => simp [hpreBits]
  | (n+3) =>
    simp only [hpreBits]
    split_ifs <;> simp

/-- Claim C9: each of the four accumulator setters overwrites only its own
field, leaves the other three unchanged, is total (no validation, no
failure), and a repeated call keeps only the last-set value. -/
theorem cfgr_setters_last_write_wins :
    ∀ (c : CFGR) (a b : Nat),
      ((c.set_hclk a).hclk = some a ∧ (c.set_hclk a).pclk1 = c.pclk1 ∧
        (c.set_hclk a).pclk2 = c.pclk2 ∧ (c.set_hclk a).sysclk = c.sysclk ∧
        (c.set_hclk a).set_hclk b = c.set_hclk b) ∧
      ((c.set_pclk1 a).pclk1 = some a ∧ (c.set_pclk1 a).hclk = c.hclk ∧
        (c.set_pclk1 a).pclk2 = c.pclk2 ∧ (c.set_pclk1 a).sysclk = c.sysclk ∧
        (c.set_pclk1 a).set_pclk1 b = c.set_pclk1 b) ∧
      ((c.set_pclk2 a).pclk2 = some a ∧ (c.set_pclk2 a).hclk = c.hclk ∧
        (c.set_pclk2 a).pclk1 = c.pclk1 ∧ (c.set_pclk2 a).sysclk = c.sysclk ∧
        (c.set_pclk2 a).set_pclk2 b = c.set_pclk2 b) ∧
      ((c.set_sysclk a).sysclk = some a ∧ (c.set_sysclk a).hclk = c.hclk ∧
        (c.set_sysclk a).pclk1 = c.pclk1 ∧ (c.set_sysclk a).pclk2 = c.pclk2 ∧
        (c.set_sysclk a).set_sysclk b = c.set_sysclk b) :=
  fun _ _ _ =>
    ⟨⟨rfl, rfl, rfl, rfl, rfl⟩, ⟨rfl, rfl, rfl, rfl, rfl⟩,
     ⟨rfl, rfl, rfl, rfl, rfl⟩, ⟨rfl, rfl, rfl, rfl, rfl⟩⟩

/-- Claim C1 (counterexample): for requested system frequency 180 MHz the
snapshot's peripheral-bus frequencies are 45 MHz and 90 MHz, not the claimed
22.5 MHz and 45 MHz. -/
theorem freeze_180MHz_claim_false :
    (CFGR.freeze ⟨none, none, none, some 180000000⟩).map
        (fun r => (r.1.pclk1, r.1.pclk2)) = some (45000000, 90000000) ∧
    (CFGR.freeze ⟨none, none, none, some 180000000⟩).map
        (fun r => (r.1.pclk1, r.1.pclk2)) ≠ some (22500000, 45000000) := by
  decide

/-- Claim C1 (amended): for requested system frequency 180 MHz, `freeze`
returns core-bus 180 MHz, peripheral-bus-1 45 MHz (code 101, real divisor
`1 << (5-3) = 4`), peripheral-bus-2 90 MHz (code 100, real divisor 2), and
writes memory wait-state code 5 before switching the clock source. -/
theorem freeze_180MHz_snapshot :
    CFGR.freeze ⟨none, none, none, some 180000000⟩ =
      some (⟨180000000, 45000000, 90000000, 180000000⟩,
        [HWWrite.flashAcr 5, HWWrite.pllcfgr 16 360 0, HWWrite.crPllOn,
         HWWrite.pllRdyWait, HWWrite.cfgr 4 5 0 SW.pll]) := by
  decide

/-- Claim C2: in the PLL path with both prescaler bit codes 0 (requested
48 MHz, and code 0 for bus 2 at 100 MHz), the `1 << (bits - 0b011)` divisor
computation underflows `u8`, so the snapshot reports peripheral-bus
frequencies of 0 Hz instead of the core-bus frequency (a debug build panics
at the subtraction instead). -/
theorem freeze_low_band_pclk_zero :
    CFGR.freeze ⟨none, none, none, some 48000000⟩ =
      some (⟨48000000, 0, 0, 48000000⟩,
        [HWWrite.flashAcr 1, HWWrite.pllcfgr 16 384 3, HWWrite.crPllOn,
         HWWrite.pllRdyWait, HWWrite.cfgr 0 0 0 SW.pll]) ∧
    CFGR.freeze ⟨none, none, none, some 100000000⟩ =
      some (⟨100000000, 50000000, 0, 100000000⟩,
        [HWWrite.flashAcr 3, HWWrite.pllcfgr 16 200 0, HWWrite.crPllOn,
         HWWrite.pllRdyWait, HWWrite.cfgr 0 4 0 SW.pll]) := by
  decide

/-- Claim C3: every snapshot returned by `freeze` satisfies
pclk1 ≤ hclk, pclk2 ≤ hclk and hclk ≤ sysclk. -/
theorem freeze_snapshot_freq_invariant :
    ∀ (c : CFGR) (clk : Clocks) (tr : List HWWrite),
      CFGR.freeze c = some (clk, tr) →
      clk.pclk1 ≤ clk.hclk ∧ clk.pclk2 ≤ clk.hclk ∧ clk.hclk ≤ clk.sysclk := by
  intro c clk tr hfr
  simp only [CFGR.freeze] at hfr
  split_ifs at hfr with h1 h2 h3 h4 h5
  · -- Path A: HSI source, no division
    simp only [Option.some.injEq, Prod.mk.injEq] at hfr
    obtain ⟨rfl, -⟩ := hfr
    exact ⟨le_refl _, le_refl _, h2⟩
  · -- Path B: HSI source, divided AHB
    rcases hb : hpreBits (c.sysclk.getD HSI / c.hclk.getD HSI) with - | b <;>
      rw [hb] at hfr
    · simp at hfr
    · simp only [Option.map_some', Option.some.injEq, Prod.mk.injEq] at hfr
      obtain ⟨rfl, -⟩ := hfr
      exact ⟨le_refl _, le_refl _, h2⟩
  · -- Path C: PLL
    simp only [Option.some.injEq, Prod.mk.injEq] at hfr
    obtain ⟨rfl, -⟩ := hfr
    exact ⟨Nat.div_le_self _ _, Nat.div_le_self _ _, le_refl _⟩

/-- Claim C3 witness at requested system frequency 180 MHz. -/
theorem freeze_snapshot_freq_invariant_witness :
    Clocks.pclk1 ⟨180000000, 45000000, 90000000, 180000000⟩ ≤
      Clocks.hclk ⟨180000000, 45000000, 90000000, 180000000⟩ ∧
    Clocks.pclk2 ⟨180000000, 45000000, 90000000, 180000000⟩ ≤
      Clocks.hclk ⟨180000000, 45000000, 90000000, 180000000⟩ ∧
    Clocks.hclk ⟨180000000, 45000000, 90000000, 180000000⟩ ≤
      Clocks.sysclk ⟨180000000, 45000000, 90000000, 180000000⟩ :=
  freeze_snapshot_freq_invariant ⟨none, none, none, some 180000000⟩
    ⟨180000000, 45000000, 90000000, 180000000⟩
    [HWWrite.flashAcr 5, HWWrite.pllcfgr 16 360 0, HWWrite.crPllOn,
     HWWrite.pllRdyWait, HWWrite.cfgr 4 5 0 SW.pll]
    (by decide)

/-- Claim C4 (counterexample): for hclk requested as 0 Hz with sysclk unset,
`freeze` produces no snapshot although none of the claim's three failure
conditions (sysclk below 16 MHz, hclk above sysclk, PLL path out of range)
holds. -/
theorem freeze_failure_missing_case :
    CFGR.freeze ⟨some 0, none, none, none⟩ = none ∧
    ¬((⟨some 0, none, none, none⟩ : CFGR).sysclk.getD HSI < HSI) ∧
    ¬((⟨some 0, none, none, none⟩ : CFGR).sysclk.getD HSI <
        (⟨some 0, none, none, none⟩ : CFGR).hclk.getD HSI) ∧
    ¬(HSI < (⟨some 0, none, none, none⟩ : CFGR).sysclk.getD HSI) := by
  decide

/-- Claim C4 (amended): `freeze` produces no snapshot exactly when the
resolved sysclk is below 16 MHz, the resolved hclk exceeds sysclk, the PLL
path is forced (sysclk > 16 MHz) with sysclk outside [24 MHz, 216 MHz], or
sysclk equals 16 MHz with hclk 0 (division by zero in the AHB ratio); in
particular resolution succeeds at 216 MHz and is fatal at 217 MHz and at
15,999,999 Hz. -/
theorem freeze_failure_characterization :
    (∀ c : CFGR,
      CFGR.freeze c = none ↔
        (c.sysclk.getD HSI < HSI ∨
         c.sysclk.getD HSI < c.hclk.getD HSI ∨
         (HSI < c.sysclk.getD HSI ∧
           (c.sysclk.getD HSI < 24000000 ∨ 216000000 < c.sysclk.getD HSI)) ∨
         (c.sysclk.getD HSI = HSI ∧ c.hclk.getD HSI = 0))) ∧
    CFGR.freeze ⟨none, none, none, some 216000000⟩ ≠ none ∧
    CFGR.freeze ⟨none, none, none, some 217000000⟩ = none ∧
    CFGR.freeze ⟨none, none, none, some 15999999⟩ = none := by
  refine ⟨?_, by decide, by decide, by decide⟩
  intro c
  have hH : HSI = 16000000 := rfl
  simp only [CFGR.freeze]
  split_ifs with h1 h2 h3 h4 h5
  · -- Path A returns a snapshot
    exact iff_of_false (by simp) (by omega)
  · -- Path B: fails exactly at ratio 0, i.e. hclk = 0
    by_cases hz : c.hclk.getD HSI = 0
    · rw [hz, Nat.div_zero]
      exact iff_of_true (by trivial) (by omega)
    · rw [hpreBits_eq_table _
        (Nat.div_pos (le_of_lt h4.2) (Nat.pos_of_ne_zero hz))]
      exact iff_of_false (by simp) (by omega)
  · -- Path C in range returns a snapshot
    exact iff_of_false (by simp) (by omega)
  · -- Path C out of range
    exact iff_of_true (by trivial) (by omega)
  · -- hclk > sysclk
    exact iff_of_true (by trivial) (by omega)
  · -- sysclk < HSI
    exact iff_of_true (by trivial) (by omega)

/-- Claim C5: in the PLL path the hardware writes happen in this order:
flash wait-state code, PLL configuration fields, PLL enable, spin-wait on
PLL-ready, then the single combined prescalers-and-clock-source write; the
wait-state write precedes the clock-source switch. -/
theorem freeze_pll_write_order :
    ∀ (c : CFGR) (clk : Clocks) (tr : List HWWrite),
      HSI < c.sysclk.getD HSI →
      CFGR.freeze c = some (clk, tr) →
      tr = [HWWrite.flashAcr (flashLatency (c.sysclk.getD HSI)),
            HWWrite.pllcfgr (pllConfig (c.sysclk.getD HSI)).1
              ((pllConfig (c.sysclk.getD HSI)).2.1 % 65536)
              (pllConfig (c.sysclk.getD HSI)).2.2,
            HWWrite.crPllOn,
            HWWrite.pllRdyWait,
            HWWrite.cfgr (ppre2Bits (c.sysclk.getD HSI))
              (ppre1Bits (c.sysclk.getD HSI)) 0 SW.pll] := by
  intro c clk tr hS hfr
  simp only [CFGR.freeze] at hfr
  split_ifs at hfr with h1 h2 h3 h4 h5
  · exact absurd h3.1 (by omega)
  · exact absurd h4.1 (by omega)
  · simp only [Option.some.injEq, Prod.mk.injEq] at hfr
    exact hfr.2.symm

/-- Claim C5 witness at requested system frequency 180 MHz. -/
theorem freeze_pll_write_order_witness :
    [HWWrite.flashAcr 5, HWWrite.pllcfgr 16 360 0, HWWrite.crPllOn,
     HWWrite.pllRdyWait, HWWrite.cfgr 4 5 0 SW.pll] =
    [HWWrite.flashAcr (flashLatency 180000000),
     HWWrite.pllcfgr (pllConfig 180000000).1
       ((pllConfig 180000000).2.1 % 65536) (pllConfig 180000000).2.2,
     HWWrite.crPllOn,
     HWWrite.pllRdyWait,
     HWWrite.cfgr (ppre2Bits 180000000) (ppre1Bits 180000000) 0 SW.pll] :=
  freeze_pll_write_order ⟨none, none, none, some 180000000⟩
    ⟨180000000, 45000000, 90000000, 180000000⟩
    [HWWrite.flashAcr 5, HWWrite.pllcfgr 16 360 0, HWWrite.crPllOn,
     HWWrite.pllRdyWait, HWWrite.cfgr 4 5 0 SW.pll]
    (by decide) (by decide)

/-- Claim C6: with sysclk requested as 16 MHz and a positive hclk strictly
below it, `freeze` selects the AHB prescaler code from the spec's ratio
table and both peripheral-bus frequencies equal the requested hclk. -/
theorem freeze_hsi_divided_table :
    ∀ (hclk : Nat) (p1 p2 : Option Nat),
      0 < hclk → hclk < HSI →
      CFGR.freeze ⟨some hclk, p1, p2, some HSI⟩ =
        some (⟨hclk, hclk, hclk, HSI⟩,
          [HWWrite.cfgr 0 0 (hpreTableSpec (HSI / hclk)) SW.hsi]) := by
  intro h p1 p2 h0 hlt
  simp only [CFGR.freeze, Option.getD_some]
  rw [if_pos (le_refl HSI), if_pos (le_of_lt hlt),
    if_neg (fun hc => absurd hc.2 (Nat.ne_of_lt hlt)),
    if_pos (show _ by constructor <;> trivial),
    hpreBits_eq_table _ (Nat.div_pos (le_of_lt hlt) h0)]
  rfl

/-- Claim C6 witness: sysclk 16 MHz, hclk 4 MHz gives prescaler code 1001
and both peripheral buses at 4 MHz. -/
theorem freeze_hsi_divided_table_witness :
    CFGR.freeze ⟨some 4000000, none, none, some 16000000⟩ =
      some (⟨4000000, 4000000, 4000000, 16000000⟩,
        [HWWrite.cfgr 0 0 0b1001 SW.hsi]) :=
  freeze_hsi_divided_table 4000000 none none (by decide) (by decide)

/-- Claim C7: the flash wait-state code written by `freeze` equals
clamp(⌈sysclk/30MHz⌉ − 1, 0, 7), and it is non-decreasing in sysclk over
the PLL-accepted range [24 MHz, 216 MHz]. -/
theorem flashLatency_clamp_mono :
    ∀ s t : Nat, 24000000 ≤ s → s ≤ 216000000 →
      24000000 ≤ t → t ≤ 216000000 →
      flashLatency s = min ((s + 30000000 - 1) / 30000000 - 1) 7 ∧
      (s ≤ t → flashLatency s ≤ flashLatency t) := by
  intro s t hs1 hs2 ht1 ht2
  have he : ∀ u : Nat, 24000000 ≤ u → u ≤ 216000000 →
      flashLatency u = min ((u + 30000000 - 1) / 30000000 - 1) 7 := by
    intro u hu1 hu2
    simp only [flashLatency]
    split_ifs <;> omega
  refine ⟨he s hs1 hs2, fun hst => ?_⟩
  rw [he s hs1 hs2, he t ht1 ht2]
  omega

/-- Claim C7 witness at 60 MHz and 180 MHz. -/
theorem flashLatency_clamp_mono_witness :
    flashLatency 60000000 = min ((60000000 + 30000000 - 1) / 30000000 - 1) 7 ∧
    (60000000 ≤ 180000000 → flashLatency 60000000 ≤ flashLatency 180000000) :=
  flashLatency_clamp_mono 60000000 180000000
    (by decide) (by decide) (by decide) (by decide)

/-- Claim C8: whenever the requested system frequency exceeds 16 MHz and
`freeze` returns a snapshot, its core-bus frequency (and its sysclk) equals
the requested system frequency, whatever hclk was requested. -/
theorem freeze_pll_hclk_eq_sysclk :
    ∀ (c : CFGR) (clk : Clocks) (tr : List HWWrite),
      HSI < c.sysclk.getD HSI →
      CFGR.freeze c = some (clk, tr) →
      clk.hclk = c.sysclk.getD HSI ∧ clk.sysclk = c.sysclk.getD HSI := by
  intro c clk tr hS hfr
  simp only [CFGR.freeze] at hfr
  split_ifs at hfr with h1 h2 h3 h4 h5
  · exact absurd h3.1 (by omega)
  · exact absurd h4.1 (by omega)
  · simp only [Option.some.injEq, Prod.mk.injEq] at hfr
    obtain ⟨rfl, -⟩ := hfr
    exact ⟨rfl, rfl⟩

/-- Claim C8 witness: requested sysclk 100 MHz with requested hclk 30 MHz
still yields core-bus frequency 100 MHz. -/
theorem freeze_pll_hclk_eq_sysclk_witness :
    Clocks.hclk ⟨100000000, 50000000, 0, 100000000⟩ = 100000000 ∧
    Clocks.sysclk ⟨100000000, 50000000, 0, 100000000⟩ = 100000000 :=
  freeze_pll_hclk_eq_sysclk ⟨some 30000000, none, none, some 100000000⟩
    ⟨100000000, 50000000, 0, 100000000⟩
    [HWWrite.flashAcr 3, HWWrite.pllcfgr 16 200 0, HWWrite.crPllOn,
     HWWrite.pllRdyWait, HWWrite.cfgr 0 4 0 SW.pll]
    (by decide) (by decide)

/-- Claim C10: with hclk requested as 0 Hz and sysclk unset or requested as
16 MHz, both precondition assertions of `freeze` pass (16 MHz ≥ 16 MHz and
0 ≤ 16 MHz), yet the AHB ratio 16 MHz / 0 divides by zero and `freeze`
panics instead of returning a snapshot. -/
theorem freeze_zero_hclk_panics :
    CFGR.freeze ⟨some 0, none, none, none⟩ = none ∧
    CFGR.freeze ⟨some 0, none, none, some 16000000⟩ = none ∧
    HSI ≤ (⟨some 0, none, none, none⟩ : CFGR).sysclk.getD HSI ∧
    (⟨some 0, none, none, none⟩ : CFGR).hclk.getD HSI ≤
      (⟨some 0, none, none, none⟩ : CFGR).sysclk.getD HSI ∧
    hpreBits (16000000 / 0) = none := by
  decide

end Stm32Rcc
